import Mathlib

/-!
Shallow embedding of the points-and-skins calculation engine of the golf
fantasy league application (src/lib/pointsCalculator.ts), together with the
Prisma data it reads and writes (prisma schema: Tournament, TournamentLineup,
GolferResult, TeamPoints, TournamentSkins).

The database is modelled as explicit lists of rows; the engine is a pure
function from a database state and a tournament id to a result value and the
updated database state, mirroring the read-compute-write cycle of
calculateTournamentPoints.
-/

/-- Tournament row: id plus the type flags the engine reads. -/
structure Tournament where
  id : String
  isMajor : Bool
  isWGC : Bool
  isMatchPlay : Bool
deriving DecidableEq, Repr

/-- GolferResult row for a (tournamentId, golferId) pair. `place` is nullable
(Int or null in the source), as are `matchPlayWins` and `skinCount`. -/
structure GolferResult where
  tournamentId : String
  golferId : String
  place : Option Int
  isCut : Bool
  matchPlayWins : Option Int
  skinCount : Option Int
deriving DecidableEq, Repr

/-- TournamentLineup row: a (teamId, tournamentId, golferId) triple. -/
structure TournamentLineup where
  teamId : String
  tournamentId : String
  golferId : String
deriving DecidableEq, Repr

/-- TeamPoints row, unique per (teamId, tournamentId), written by the engine. -/
structure TeamPointsRow where
  teamId : String
  tournamentId : String
  points : Int
  skinCount : Int
deriving DecidableEq, Repr

/-- TournamentSkins pot row for a tournament. -/
structure TournamentSkinsRow where
  tournamentId : String
  skinValue : Int
  carryOver : Bool
deriving DecidableEq, Repr

/-- The database state the engine touches: the tables read (tournaments,
teams, lineups, golfer results) and the tables written (team points,
tournament skins). Teams are represented by their ids. -/
structure DB where
  tournaments : List Tournament
  teams : List String
  lineups : List TournamentLineup
  golferResults : List GolferResult
  teamPoints : List TeamPointsRow
  tournamentSkins : List TournamentSkinsRow
deriving DecidableEq, Repr

/-- Result value of calculateTournamentPoints. -/
structure RunResult where
  success : Bool
  message : String
  pointsCalculated : Int
  skinsAwarded : Int
deriving DecidableEq, Repr

/-- JavaScript Math.round: round half toward positive infinity. -/
def jsRound (q : ℚ) : Int := ⌊q + 1 / 2⌋

/-- The BASE_POINTS keyed object lookup with the source's fallback:
BASE_POINTS[place] when the key 1..20 is present, and the JS
`undefined || 0` fallback otherwise. -/
def basePointsGet (p : Int) : Int :=
  if p = 1 then 100
  else if p = 2 then 70
  else if p = 3 then 50
  else if p = 4 then 40
  else if p = 5 then 30
  else if p = 6 ∨ p = 7 ∨ p = 8 ∨ p = 9 ∨ p = 10 then 20
  else if p = 11 ∨ p = 12 ∨ p = 13 ∨ p = 14 ∨ p = 15 then 10
  else if p = 16 ∨ p = 17 ∨ p = 18 ∨ p = 19 ∨ p = 20 then 5
  else 0

/-- getPointsForPlace from the source. `!place` in JS is true for null and
for 0, so both yield 0; a place of at most 20 goes through the BASE_POINTS
lookup with its `|| 0` fallback; anything above 20 yields 0. -/
def getPointsForPlace (place : Option Int) : Int :=
  match place with
  | none => 0
  | some p => if p = 0 then 0 else if p ≤ 20 then basePointsGet p else 0

/-- getTournamentMultiplier from the source. -/
def getTournamentMultiplier (isMajor : Bool) (isWGC : Bool) : ℚ :=
  if isMajor then 2 else if isWGC then 3 / 2 else 1

/-- Per-golfer points of the inner loop of calculateTournamentPoints:
match-play wins or the place lookup, times the multiplier (rounded), then
the cut penalty of 10. -/
def golferPoints (isMatchPlay : Bool) (multiplier : ℚ) (result : GolferResult) : Int :=
  let basePoints : Int :=
    if isMatchPlay then result.matchPlayWins.getD 0
    else getPointsForPlace result.place
  let rounded := jsRound ((basePoints : ℚ) * multiplier)
  if result.isCut then rounded - 10 else rounded

/-- Per-golfer skins of the inner loop: `result.skinCount && result.skinCount
> 0` adds the count, so null, zero and negative counts add nothing. -/
def golferSkins (result : GolferResult) : Int :=
  match result.skinCount with
  | some s => if 0 < s then s else 0
  | none => 0

/-- The per-team inner loop: fold over the lineup's golfer ids, look up the
golfer's result in this tournament's results, and accumulate points and
skins; a golfer without a result row contributes nothing. -/
def teamTotals (tournament : Tournament) (multiplier : ℚ)
    (golferResults : List GolferResult) (lineup : List String) : Int × Int :=
  lineup.foldl (fun acc golferId =>
    match golferResults.find? (fun r => r.golferId == golferId) with
    | some result =>
        (acc.1 + golferPoints tournament.isMatchPlay multiplier result,
         acc.2 + golferSkins result)
    | none => acc) (0, 0)

/-- prisma.teamPoints.upsert keyed by (teamId, tournamentId): update the
matching row when present, otherwise create one. -/
def upsertTeamPoints (rows : List TeamPointsRow) (teamId : String)
    (tournamentId : String) (points : Int) (skinCount : Int) : List TeamPointsRow :=
  if rows.any (fun r => r.teamId == teamId && r.tournamentId == tournamentId) then
    rows.map (fun r =>
      if r.teamId == teamId && r.tournamentId == tournamentId then
        { r with points := points, skinCount := skinCount }
      else r)
  else
    rows ++ [⟨teamId, tournamentId, points, skinCount⟩]

/-- The main loop over teams: for each team, compute its totals from its
lineup, upsert its TeamPoints row, and accumulate the grand totals, exactly
in the order the source's for-loop does. -/
def processTeams (tournament : Tournament) (multiplier : ℚ)
    (golferResults : List GolferResult) (tournamentId : String) :
    List (String × List String) → Int → Int → List TeamPointsRow →
      Int × Int × List TeamPointsRow
  | [], totalPoints, totalSkins, rows => (totalPoints, totalSkins, rows)
  | (teamId, lineup) :: rest, totalPoints, totalSkins, rows =>
    let v := teamTotals tournament multiplier golferResults lineup
    processTeams tournament multiplier golferResults tournamentId rest
      (totalPoints + v.1) (totalSkins + v.2)
      (upsertTeamPoints rows teamId tournamentId v.1 v.2)

/-- prisma.tournament.findUnique by id. -/
def findTournament (db : DB) (tournamentId : String) : Option Tournament :=
  db.tournaments.find? (fun t => t.id == tournamentId)

/-- The lineup a team fielded for a tournament (the `tournamentLineup`
include, filtered by tournamentId), as the list of golfer ids. -/
def teamLineup (db : DB) (tournamentId : String) (teamId : String) : List String :=
  (db.lineups.filter (fun l => l.teamId == teamId && l.tournamentId == tournamentId)).map
    (fun l => l.golferId)

/-- prisma.team.findMany with the tournament's lineups included: every team,
paired with its (possibly empty) lineup for this tournament. -/
def teamsWithLineups (db : DB) (tournamentId : String) : List (String × List String) :=
  db.teams.map (fun teamId => (teamId, teamLineup db tournamentId teamId))

/-- prisma.golferResult.findMany for the tournament. -/
def resultsFor (db : DB) (tournamentId : String) : List GolferResult :=
  db.golferResults.filter (fun r => r.tournamentId == tournamentId)

/-- Sum of skinCount across a tournament's GolferResult rows, with the JS
`|| 0` fallback for null counts. -/
def sumSkins (golferResults : List GolferResult) : Int :=
  golferResults.foldl (fun sum r => sum + r.skinCount.getD 0) 0

/-- prisma.tournamentSkins.update setting carryOver to true on the
tournament's pot row. -/
def setCarryOver (rows : List TournamentSkinsRow) (tournamentId : String) :
    List TournamentSkinsRow :=
  rows.map (fun s =>
    if s.tournamentId == tournamentId then { s with carryOver := true } else s)

/-- The skins step at the end of the run: only when a TournamentSkins row
exists, total the skinCount over all golfer results and, when that total is
zero, mark the row as a carry-over. -/
def skinsStep (rows : List TournamentSkinsRow) (tournamentId : String)
    (golferResults : List GolferResult) : List TournamentSkinsRow :=
  match rows.find? (fun s => s.tournamentId == tournamentId) with
  | some _ =>
      let totalSkins := sumSkins golferResults
      if totalSkins = 0 then setCarryOver rows tournamentId else rows
  | none => rows

/-- calculateTournamentPoints as a pure state transformer: look up the
tournament (failing with a not-found result when absent), process every team
against this tournament's results and lineups, then run the skins step, and
return the success result with the grand totals plus the updated database. -/
def calculateTournamentPoints (db : DB) (tournamentId : String) : RunResult × DB :=
  match findTournament db tournamentId with
  | none =>
      ({ success := false, message := "Tournament not found",
         pointsCalculated := 0, skinsAwarded := 0 }, db)
  | some tournament =>
      let golferResults := resultsFor db tournamentId
      let multiplier := getTournamentMultiplier tournament.isMajor tournament.isWGC
      let r := processTeams tournament multiplier golferResults tournamentId
        (teamsWithLineups db tournamentId) 0 0 db.teamPoints
      ({ success := true, message := "Points calculated successfully",
         pointsCalculated := r.1, skinsAwarded := r.2.1 },
       { db with teamPoints := r.2.2,
                 tournamentSkins := skinsStep db.tournamentSkins tournamentId golferResults })

/-- A TeamPoints table is settled for a key when a row with that
(teamId, tournamentId) key exists and every row with that key carries the
given points and skin count. -/
def RowsSettled (rows : List TeamPointsRow) (teamId : String)
    (tournamentId : String) (points : Int) (skinCount : Int) : Prop :=
  (∃ row ∈ rows, row.teamId = teamId ∧ row.tournamentId = tournamentId) ∧
  ∀ row ∈ rows, row.teamId = teamId → row.tournamentId = tournamentId →
    row.points = points ∧ row.skinCount = skinCount

/-- The position table as the claim states it: a total function on nullable
positions, with the eight tiers, and 0 for null, for 21 and above, and for
0 and negative positions. -/
def specBasePoints (place : Option Int) : Int :=
  match place with
  | none => 0
  | some p =>
      if p = 1 then 100
      else if p = 2 then 70
      else if p = 3 then 50
      else if p = 4 then 40
      else if p = 5 then 30
      else if 6 ≤ p ∧ p ≤ 10 then 20
      else if 11 ≤ p ∧ p ≤ 15 then 10
      else if 16 ≤ p ∧ p ≤ 20 then 5
      else 0

/-- The multiplier exactly as the claim words it: 2 for a Major, 1.5 for a
WGC that is not a Major, 1 otherwise. -/
def specMultiplier (isMajor : Bool) (isWGC : Bool) : ℚ :=
  if isMajor then 2 else if isWGC && !isMajor then 3 / 2 else 1

/-- A golfer's contribution exactly as the claim words it: round the base
(match-play wins or the position table) times the multiplier, then subtract
10 when the result is marked cut, the penalty never multiplied. -/
def golferPointsSpec (tournament : Tournament) (result : GolferResult) : Int :=
  jsRound
    (((if tournament.isMatchPlay then result.matchPlayWins.getD 0
       else getPointsForPlace result.place : Int) : ℚ) *
      specMultiplier tournament.isMajor tournament.isWGC) -
    (if result.isCut then 10 else 0)

/-! Concrete data used by witnesses and counterexamples. -/

/-- A regular stroke-play tournament with id t1. -/
def tRegular : Tournament := ⟨"t1", false, false, false⟩

/-- A match-play tournament. -/
def tMatchPlay : Tournament := ⟨"t1", false, false, true⟩

/-- A match-play tournament simultaneously flagged Major. -/
def tMatchPlayMajor : Tournament := ⟨"t1", true, false, true⟩

/-- A golfer result with three match-play wins, not cut. -/
def matchPlayResult3 : GolferResult := ⟨"t1", "g1", none, false, some 3, none⟩

/-- The empty database. -/
def dbEmpty : DB := ⟨[], [], [], [], [], []⟩

/-- A database holding only the regular tournament t1. -/
def dbOneTournament : DB := ⟨[tRegular], [], [], [], [], []⟩

/-! Claim theorems. -/

/-- C2: a fielded golfer's point contribution equals round(base times m)
minus 10 when cut, where m is 2 for a Major, 1.5 for a WGC that is not a
Major, and 1 otherwise; rounding happens after the multiplication and the
cut penalty is subtracted after the multiplier and never multiplied. -/
theorem C2_golfer_contribution (t : Tournament) (r : GolferResult) :
    golferPoints t.isMatchPlay (getTournamentMultiplier t.isMajor t.isWGC) r =
      golferPointsSpec t r := by
  cases ht : t.isMajor <;> cases hw : t.isWGC <;> cases hc : r.isCut <;>
    simp [golferPoints, golferPointsSpec, getTournamentMultiplier, specMultiplier, ht, hw, hc]

set_option maxHeartbeats 2000000 in
/-- C3: the pre-multiplier stroke-play base points are given by the fixed
position table, totally: 1 to 100, 2 to 70, 3 to 50, 4 to 40, 5 to 30,
6 through 10 to 20, 11 through 15 to 10, 16 through 20 to 5, and every
out-of-table input (21 and above, null, 0 or negative) to 0. -/
theorem C3_position_table (place : Option Int) :
    getPointsForPlace place = specBasePoints place := by
  cases place with
  | none => rfl
  | some p =>
      simp only [getPointsForPlace, specBasePoints]
      rcases eq_or_ne p 0 with h0 | h0
      · simp [h0, basePointsGet]
      rcases le_or_lt p 20 with h20 | h20
      · simp only [if_neg h0, if_pos h20, basePointsGet]
        split_ifs <;> omega
      · simp only [if_neg h0, if_neg (not_le.mpr h20)]
        split_ifs <;> omega

/-- C5: with a tournament id that references no Tournament, the run returns
the failure result with the message Tournament not found and zeroed
counters, and the database is returned exactly as it was. -/
theorem C5_not_found (db : DB) (tid : String)
    (h : findTournament db tid = none) :
    calculateTournamentPoints db tid =
      ({ success := false, message := "Tournament not found",
         pointsCalculated := 0, skinsAwarded := 0 }, db) := by
  simp [calculateTournamentPoints, h]

/-- C5 witness: the empty database has no tournament t1, and the run on it
returns the not-found failure and the unchanged database. -/
theorem C5_not_found_witness :
    calculateTournamentPoints dbEmpty "t1" =
      ({ success := false, message := "Tournament not found",
         pointsCalculated := 0, skinsAwarded := 0 }, dbEmpty) :=
  C5_not_found dbEmpty "t1" rfl

/-- C7: in a match-play tournament the pre-multiplier base is the golfer's
matchPlayWins count and the multiplier still applies on top; with three wins
the contribution is 3 in a regular match-play event and 6 when the event is
simultaneously flagged Major. -/
theorem C7_match_play :
    (∀ (isMajor isWGC : Bool) (r : GolferResult) (w : Int),
        r.matchPlayWins = some w → r.isCut = false →
        golferPoints true (getTournamentMultiplier isMajor isWGC) r =
          jsRound ((w : ℚ) * getTournamentMultiplier isMajor isWGC)) ∧
    golferPoints tMatchPlay.isMatchPlay
        (getTournamentMultiplier tMatchPlay.isMajor tMatchPlay.isWGC)
        matchPlayResult3 = 3 ∧
    golferPoints tMatchPlayMajor.isMatchPlay
        (getTournamentMultiplier tMatchPlayMajor.isMajor tMatchPlayMajor.isWGC)
        matchPlayResult3 = 6 := by
  refine ⟨?_, ?_, ?_⟩
  · intro isMajor isWGC r w hw hc
    simp [golferPoints, hw, hc]
  · norm_num [golferPoints, matchPlayResult3, tMatchPlay, getTournamentMultiplier, jsRound]
  · norm_num [golferPoints, matchPlayResult3, tMatchPlayMajor, getTournamentMultiplier, jsRound]

/-- C7 witness: a WGC match-play event at three wins, the contribution being
the rounded product of the wins and the multiplier. -/
theorem C7_match_play_witness :
    golferPoints true (getTournamentMultiplier false true) matchPlayResult3 =
      jsRound ((3 : ℚ) * getTournamentMultiplier false true) :=
  C7_match_play.1 false true matchPlayResult3 3 rfl rfl

/-- C9: a lineup golfer with no recorded result row contributes exactly
nothing to the team totals (dropping the golfer from the lineup leaves the
totals unchanged), and a run on an existing tournament still succeeds. -/
theorem C9_missing_result :
    (∀ (t : Tournament) (m : ℚ) (results : List GolferResult) (gid : String)
        (l1 l2 : List String),
        results.find? (fun r => r.golferId == gid) = none →
        teamTotals t m results (l1 ++ gid :: l2) = teamTotals t m results (l1 ++ l2)) ∧
    (∀ (db : DB) (tid : String) (t : Tournament),
        findTournament db tid = some t →
        (calculateTournamentPoints db tid).1.success = true) := by
  constructor
  · intro t m results gid l1 l2 h
    simp [teamTotals, List.foldl_append, h]
  · intro db tid t h
    simp [calculateTournamentPoints, h]

/-- C9 witness: with no results at all, a singleton lineup contributes the
same totals as the empty lineup, and a run on the database holding only
tournament t1 succeeds. -/
theorem C9_missing_result_witness :
    teamTotals tRegular 1 [] ([] ++ "g1" :: []) = teamTotals tRegular 1 [] ([] ++ []) ∧
    (calculateTournamentPoints dbOneTournament "t1").1.success = true :=
  ⟨C9_missing_result.1 tRegular 1 [] "g1" [] [] rfl,
   C9_missing_result.2 dbOneTournament "t1" tRegular rfl⟩

/-! Lemmas about the TeamPoints upsert and the team-processing loop. -/

/-- Upserting a key settles the table for that key at the written values. -/
theorem rowsSettled_upsert (rows : List TeamPointsRow) (a b : String) (p s : Int) :
    RowsSettled (upsertTeamPoints rows a b p s) a b p s := by
  unfold RowsSettled upsertTeamPoints
  by_cases h : rows.any (fun r => r.teamId == a && r.tournamentId == b) = true
  · rw [if_pos h]
    constructor
    · rcases List.any_eq_true.mp h with ⟨r, hr, hb⟩
      simp only [Bool.and_eq_true, beq_iff_eq] at hb
      refine ⟨_, List.mem_map_of_mem _ hr, ?_⟩
      simp [hb.1, hb.2]
    · intro row hrow ha hb2
      rcases List.mem_map.mp hrow with ⟨r, hr, rfl⟩
      by_cases hcond : (r.teamId == a && r.tournamentId == b) = true
      · simp [hcond]
      · rw [if_neg hcond] at ha hb2 ⊢
        simp [Bool.and_eq_true, beq_iff_eq, ha, hb2] at hcond
  · rw [if_neg h]
    constructor
    · exact ⟨⟨a, b, p, s⟩, by simp, rfl, rfl⟩
    · intro row hrow ha hb2
      rcases List.mem_append.mp hrow with hin | hin
      · exact absurd (List.any_eq_true.mpr ⟨row, hin, by simp [ha, hb2]⟩) h
      · simp only [List.mem_singleton] at hin
        subst hin
        exact ⟨rfl, rfl⟩

/-- Upserting a different team's key preserves a settled key. -/
theorem rowsSettled_upsert_ne (rows : List TeamPointsRow) (a b : String) (p s : Int)
    (a2 : String) (p2 s2 : Int) (hne : a2 ≠ a) (h : RowsSettled rows a b p s) :
    RowsSettled (upsertTeamPoints rows a2 b p2 s2) a b p s := by
  obtain ⟨⟨r0, hr0, hr0a, hr0b⟩, hall⟩ := h
  unfold upsertTeamPoints
  by_cases hany : rows.any (fun r => r.teamId == a2 && r.tournamentId == b) = true
  · rw [if_pos hany]
    constructor
    · have hc : (r0.teamId == a2 && r0.tournamentId == b) = false := by
        have hc1 : (r0.teamId == a2) = false := by
          rw [beq_eq_false_iff_ne, hr0a]
          exact fun hh => hne hh.symm
        simp [hc1]
      refine ⟨_, List.mem_map_of_mem _ hr0, ?_⟩
      rw [if_neg (by simp [hc])]
      exact ⟨hr0a, hr0b⟩
    · intro row hrow ha hb2
      rcases List.mem_map.mp hrow with ⟨r, hr, rfl⟩
      by_cases hcond : (r.teamId == a2 && r.tournamentId == b) = true
      · exfalso
        rw [if_pos hcond] at ha
        simp only [Bool.and_eq_true, beq_iff_eq] at hcond
        rw [hcond.1] at ha
        exact hne ha
      · rw [if_neg hcond] at ha hb2 ⊢
        exact hall _ hr ha hb2
  · rw [if_neg hany]
    constructor
    · exact ⟨r0, List.mem_append_left _ hr0, hr0a, hr0b⟩
    · intro row hrow ha hb2
      rcases List.mem_append.mp hrow with hin | hin
      · exact hall row hin ha hb2
      · simp only [List.mem_singleton] at hin
        subst hin
        exact absurd ha hne

/-- Upserting the values a key is already settled at leaves the table
unchanged. -/
theorem upsert_of_settled (rows : List TeamPointsRow) (a b : String) (p s : Int)
    (h : RowsSettled rows a b p s) :
    upsertTeamPoints rows a b p s = rows := by
  obtain ⟨⟨r0, hr0, hr0a, hr0b⟩, hall⟩ := h
  have hany : rows.any (fun r => r.teamId == a && r.tournamentId == b) = true :=
    List.any_eq_true.mpr ⟨r0, hr0, by simp [hr0a, hr0b]⟩
  unfold upsertTeamPoints
  rw [if_pos hany]
  have hstep : ∀ r ∈ rows,
      (if r.teamId == a && r.tournamentId == b then
        { r with points := p, skinCount := s } else r) = r := by
    intro r hr
    by_cases hcond : (r.teamId == a && r.tournamentId == b) = true
    · rw [if_pos hcond]
      simp only [Bool.and_eq_true, beq_iff_eq] at hcond
      obtain ⟨hp, hs⟩ := hall r hr hcond.1 hcond.2
      cases r
      simp_all
    · rw [if_neg hcond]
  rw [List.map_congr_left hstep]
  simp

/-- The grand totals of the team loop are the accumulators plus the sums of
the per-team totals, independent of the TeamPoints table it starts from. -/
theorem processTeams_totals (t : Tournament) (m : ℚ) (res : List GolferResult)
    (tid : String) (teams : List (String × List String)) :
    ∀ (a b : Int) (rows : List TeamPointsRow),
      (processTeams t m res tid teams a b rows).1 =
        a + (teams.map (fun q => (teamTotals t m res q.2).1)).sum ∧
      (processTeams t m res tid teams a b rows).2.1 =
        b + (teams.map (fun q => (teamTotals t m res q.2).2)).sum := by
  induction teams with
  | nil => intro a b rows; simp [processTeams]
  | cons hd tl ih =>
      intro a b rows
      obtain ⟨q1, q2⟩ := hd
      simp only [processTeams, List.map_cons, List.sum_cons]
      constructor
      · rw [(ih _ _ _).1]; ring
      · rw [(ih _ _ _).2]; ring

/-- A key all of whose occurrences in the remaining team list recompute the
same totals stays settled through the rest of the loop. -/
theorem processTeams_preserves (t : Tournament) (m : ℚ) (res : List GolferResult)
    (tid a : String) (pv sv : Int) (teams : List (String × List String)) :
    ∀ (x y : Int) (rows : List TeamPointsRow),
      (∀ q ∈ teams, q.1 = a → teamTotals t m res q.2 = (pv, sv)) →
      RowsSettled rows a tid pv sv →
      RowsSettled (processTeams t m res tid teams x y rows).2.2 a tid pv sv := by
  induction teams with
  | nil => intro x y rows _ hset; simpa [processTeams] using hset
  | cons hd tl ih =>
      intro x y rows hcons hset
      obtain ⟨q1, q2⟩ := hd
      simp only [processTeams]
      apply ih _ _ _ (fun q hq => hcons q (List.mem_cons_of_mem _ hq))
      by_cases hq : q1 = a
      · have hv := hcons (q1, q2) (List.mem_cons_self _ _) hq
        subst hq
        rw [hv]
        exact rowsSettled_upsert rows _ tid pv sv
      · exact rowsSettled_upsert_ne rows a tid pv sv q1
          (teamTotals t m res q2).1 (teamTotals t m res q2).2 hq hset

/-- After the loop runs over a team list containing a key, and every
occurrence of that key recomputes the lineup's totals, the key is settled at
those totals. -/
theorem processTeams_settles (t : Tournament) (m : ℚ) (res : List GolferResult)
    (tid a : String) (lu : List String) (teams : List (String × List String)) :
    ∀ (x y : Int) (rows : List TeamPointsRow),
      (a, lu) ∈ teams →
      (∀ q ∈ teams, q.1 = a → teamTotals t m res q.2 = teamTotals t m res lu) →
      RowsSettled (processTeams t m res tid teams x y rows).2.2 a tid
        (teamTotals t m res lu).1 (teamTotals t m res lu).2 := by
  induction teams with
  | nil => intro x y rows hmem; exact absurd hmem (List.not_mem_nil _)
  | cons hd tl ih =>
      intro x y rows hmem hcons
      obtain ⟨q1, q2⟩ := hd
      rcases List.mem_cons.mp hmem with heq | hin
      · injection heq with h1 h2
        subst h1; subst h2
        simp only [processTeams]
        apply processTeams_preserves
        · intro q hq hqa
          rw [hcons q (List.mem_cons_of_mem _ hq) hqa]
        · exact rowsSettled_upsert rows a tid (teamTotals t m res lu).1
            (teamTotals t m res lu).2
      · simp only [processTeams]
        exact ih _ _ _ hin (fun q hq => hcons q (List.mem_cons_of_mem _ hq))

/-- A loop starting from a table already settled at every listed team's
totals leaves that table unchanged. -/
theorem processTeams_stable (t : Tournament) (m : ℚ) (res : List GolferResult)
    (tid : String) (teams : List (String × List String)) :
    ∀ (x y : Int) (rows : List TeamPointsRow),
      (∀ q ∈ teams,
        RowsSettled rows q.1 tid (teamTotals t m res q.2).1 (teamTotals t m res q.2).2) →
      (processTeams t m res tid teams x y rows).2.2 = rows := by
  induction teams with
  | nil => intro x y rows _; simp [processTeams]
  | cons hd tl ih =>
      intro x y rows hset
      obtain ⟨q1, q2⟩ := hd
      simp only [processTeams]
      rw [upsert_of_settled rows q1 tid (teamTotals t m res q2).1 (teamTotals t m res q2).2
        (hset (q1, q2) (List.mem_cons_self _ _))]
      exact ih _ _ _ (fun q hq => hset q (List.mem_cons_of_mem _ hq))

/-- Every team of the database is settled at its computed totals after the
loop runs over the database's team-lineup list. -/
theorem processTeams_db_settled (db : DB) (tid : String) (t : Tournament) (m : ℚ)
    (res : List GolferResult) (x y : Int) (rows : List TeamPointsRow) :
    ∀ q ∈ teamsWithLineups db tid,
      RowsSettled (processTeams t m res tid (teamsWithLineups db tid) x y rows).2.2
        q.1 tid (teamTotals t m res q.2).1 (teamTotals t m res q.2).2 := by
  intro q hq
  rcases List.mem_map.mp hq with ⟨i, hi, rfl⟩
  apply processTeams_settles
  · exact List.mem_map_of_mem _ hi
  · intro q2 hq2 hq21
    rcases List.mem_map.mp hq2 with ⟨j, hj, rfl⟩
    simp only at hq21
    rw [hq21]

/-! Lemmas about the skins carry-over step. -/

/-- A pot row keeps its tournamentId through the carry-over update. -/
theorem setCarryOver_tid (s0 : TournamentSkinsRow) (tid : String) :
    (if s0.tournamentId == tid then { s0 with carryOver := true } else s0).tournamentId =
      s0.tournamentId := by
  by_cases hc : (s0.tournamentId == tid) = true
  · rw [if_pos hc]
  · rw [if_neg hc]

/-- After the carry-over update, every pot row of the tournament is marked
as a carry-over. -/
theorem setCarryOver_carry (rows : List TournamentSkinsRow) (tid : String) :
    ∀ s ∈ setCarryOver rows tid, s.tournamentId = tid → s.carryOver = true := by
  intro s hs htid
  rcases List.mem_map.mp hs with ⟨s0, hs0, rfl⟩
  by_cases hc : (s0.tournamentId == tid) = true
  · rw [if_pos hc]
  · exfalso
    rw [if_neg hc] at htid
    exact hc (by simp [htid])

/-- The carry-over update preserves whether the tournament's pot row
exists. -/
theorem find?_setCarryOver_isSome (rows : List TournamentSkinsRow) (tid tid2 : String) :
    ((setCarryOver rows tid).find? (fun s => s.tournamentId == tid2)).isSome ↔
      (rows.find? (fun s => s.tournamentId == tid2)).isSome := by
  simp only [List.find?_isSome, setCarryOver, List.mem_map]
  constructor
  · rintro ⟨x, ⟨s0, hs0, rfl⟩, hx⟩
    rw [setCarryOver_tid] at hx
    exact ⟨s0, hs0, hx⟩
  · rintro ⟨s0, hs0, hx⟩
    refine ⟨_, ⟨s0, hs0, rfl⟩, ?_⟩
    rw [setCarryOver_tid]
    exact hx

/-- Marking the same tournament's pot rows twice is the same as once. -/
theorem setCarryOver_idem (rows : List TournamentSkinsRow) (tid : String) :
    setCarryOver (setCarryOver rows tid) tid = setCarryOver rows tid := by
  unfold setCarryOver
  rw [List.map_map]
  apply List.map_congr_left
  intro s0 _
  by_cases hc : (s0.tournamentId == tid) = true
  · simp [Function.comp, hc]
  · simp [Function.comp, hc]

/-- With no pot row for the tournament, the skins step writes nothing. -/
theorem skinsStep_none (rows : List TournamentSkinsRow) (tid : String)
    (res : List GolferResult)
    (hf : rows.find? (fun s => s.tournamentId == tid) = none) :
    skinsStep rows tid res = rows := by
  unfold skinsStep
  rw [hf]

/-- With a nonzero skin total, the skins step leaves the pot table exactly
as it was. -/
theorem skinsStep_unchanged (rows : List TournamentSkinsRow) (tid : String)
    (res : List GolferResult) (hz : sumSkins res ≠ 0) :
    skinsStep rows tid res = rows := by
  unfold skinsStep
  rcases hf : rows.find? (fun s => s.tournamentId == tid) with _ | s0 <;> simp [hf, hz]

/-- With a zero skin total, every pot row of the tournament carries over
after the skins step. -/
theorem skinsStep_carry (rows : List TournamentSkinsRow) (tid : String)
    (res : List GolferResult) (hz : sumSkins res = 0) :
    ∀ s ∈ skinsStep rows tid res, s.tournamentId = tid → s.carryOver = true := by
  intro s hs htid
  rcases hf : rows.find? (fun x => x.tournamentId == tid) with _ | s0
  · simp only [skinsStep, hf] at hs
    have := List.find?_eq_none.mp hf s hs
    simp [htid] at this
  · simp only [skinsStep, hf] at hs
    rw [if_pos hz] at hs
    exact setCarryOver_carry rows tid s hs htid

/-- Running the skins step twice over the same results changes nothing the
second time. -/
theorem skinsStep_idem (rows : List TournamentSkinsRow) (tid : String)
    (res : List GolferResult) :
    skinsStep (skinsStep rows tid res) tid res = skinsStep rows tid res := by
  rcases hf : rows.find? (fun s => s.tournamentId == tid) with _ | s0
  · rw [skinsStep_none rows tid res hf, skinsStep_none rows tid res hf]
  · by_cases hz : sumSkins res = 0
    · have h1 : skinsStep rows tid res = setCarryOver rows tid := by
        simp [skinsStep, hf, hz]
      rw [h1]
      have h2 : ((setCarryOver rows tid).find? (fun s => s.tournamentId == tid)).isSome := by
        rw [find?_setCarryOver_isSome]
        simp [hf]
      rcases hf2 : (setCarryOver rows tid).find? (fun s => s.tournamentId == tid) with _ | s1
      · rw [hf2] at h2
        simp at h2
      · simp [skinsStep, hf2, hz, setCarryOver_idem]
    · rw [skinsStep_unchanged rows tid res hz, skinsStep_unchanged rows tid res hz]

/-- The shape of a successful run: the totals and table of the team loop
started at zero accumulators, and the skins step, applied to the database. -/
theorem calculateTournamentPoints_found (db : DB) (tid : String) (t : Tournament)
    (ht : findTournament db tid = some t) :
    calculateTournamentPoints db tid =
      ({ success := true, message := "Points calculated successfully",
         pointsCalculated := (processTeams t (getTournamentMultiplier t.isMajor t.isWGC)
           (resultsFor db tid) tid (teamsWithLineups db tid) 0 0 db.teamPoints).1,
         skinsAwarded := (processTeams t (getTournamentMultiplier t.isMajor t.isWGC)
           (resultsFor db tid) tid (teamsWithLineups db tid) 0 0 db.teamPoints).2.1 },
       { db with
         teamPoints := (processTeams t (getTournamentMultiplier t.isMajor t.isWGC)
           (resultsFor db tid) tid (teamsWithLineups db tid) 0 0 db.teamPoints).2.2,
         tournamentSkins := skinsStep db.tournamentSkins tid (resultsFor db tid) }) := by
  simp [calculateTournamentPoints, ht]

/-- Projections of the database update a successful run performs. -/
theorem findTournament_update (db : DB) (tp : List TeamPointsRow)
    (ts : List TournamentSkinsRow) (tid : String) :
    findTournament { db with teamPoints := tp, tournamentSkins := ts } tid =
      findTournament db tid := rfl

/-- The golfer results a run reads do not depend on the tables it writes. -/
theorem resultsFor_update (db : DB) (tp : List TeamPointsRow)
    (ts : List TournamentSkinsRow) (tid : String) :
    resultsFor { db with teamPoints := tp, tournamentSkins := ts } tid =
      resultsFor db tid := rfl

/-- The team-lineup list a run reads does not depend on the tables it
writes. -/
theorem teamsWithLineups_update (db : DB) (tp : List TeamPointsRow)
    (ts : List TournamentSkinsRow) (tid : String) :
    teamsWithLineups { db with teamPoints := tp, tournamentSkins := ts } tid =
      teamsWithLineups db tid := rfl

/-! The remaining concrete data and claim theorems. -/

/-- A database with one team that has a prior TeamPoints row for t1 but no
lineup entry for it. -/
def dbC1 : DB := ⟨[tRegular], ["teamA"], [], [], [⟨"teamA", "t1", 42, 7⟩], []⟩

/-- A database with a pot row for t1 and no golfer results. -/
def dbSkinsZero : DB := ⟨[tRegular], [], [], [], [], [⟨"t1", 100, false⟩]⟩

/-- A database with a pot row for t1 and one golfer result carrying two
skins. -/
def dbSkinsTwo : DB :=
  ⟨[tRegular], [], [], [⟨"t1", "g1", none, false, none, some 2⟩], [],
   [⟨"t1", 100, false⟩]⟩

/-- A database with one team fielding one golfer who has no result row. -/
def dbOneTeam : DB := ⟨[tRegular], ["teamA"], [⟨"teamA", "t1", "g1"⟩], [], [], []⟩

/-- A database with a zero-skin golfer result and no pot row at all. -/
def dbNoPot : DB :=
  ⟨[tRegular], [], [], [⟨"t1", "g1", none, false, none, some 0⟩], [], []⟩

/-- C1 counterexample: team teamA has no lineup entry for t1 and a prior
TeamPoints row of 42 points and 7 skins; the run still succeeds, yet it
overwrites that row with a fresh row of 0 points and 0 skins, so a
TeamPoints row is written for the pair and the prior row is not left
unchanged. -/
theorem C1_counterexample :
    teamLineup dbC1 "t1" "teamA" = [] ∧
    dbC1.teamPoints = [⟨"teamA", "t1", 42, 7⟩] ∧
    (calculateTournamentPoints dbC1 "t1").1.success = true ∧
    (calculateTournamentPoints dbC1 "t1").2.teamPoints = [⟨"teamA", "t1", 0, 0⟩] := by
  refine ⟨rfl, rfl, ?_, ?_⟩ <;> decide

/-- C1 amended: a successful run writes a TeamPoints row with 0 points and
0 skins for every team with no lineup entry for the tournament, overwriting
any prior values for that (teamId, tournamentId) pair. -/
theorem C1_amended_zero_row (db : DB) (tid : String) (t : Tournament) (teamId : String)
    (ht : findTournament db tid = some t) (hmem : teamId ∈ db.teams)
    (hempty : teamLineup db tid teamId = []) :
    RowsSettled (calculateTournamentPoints db tid).2.teamPoints teamId tid 0 0 := by
  rw [calculateTournamentPoints_found db tid t ht]
  have h := processTeams_db_settled db tid t (getTournamentMultiplier t.isMajor t.isWGC)
    (resultsFor db tid) 0 0 db.teamPoints (teamId, teamLineup db tid teamId)
    (List.mem_map_of_mem _ hmem)
  rw [hempty] at h
  simpa [teamTotals] using h

/-- C1 witness: on the counterexample database, the amended claim applies:
after the run, teamA's row for t1 exists and holds 0 points and 0 skins. -/
theorem C1_amended_zero_row_witness :
    RowsSettled (calculateTournamentPoints dbC1 "t1").2.teamPoints "teamA" "t1" 0 0 :=
  C1_amended_zero_row dbC1 "t1" tRegular "teamA" rfl (by decide) rfl

/-- C4: on a successful run, if the sum of skinCount over all of the
tournament's GolferResult rows is zero then every TournamentSkins row of
the tournament has carryOver true afterwards, and if the sum is nonzero the
TournamentSkins table is exactly as it was before the run. -/
theorem C4_carryover (db : DB) (tid : String) (t : Tournament)
    (ht : findTournament db tid = some t) :
    (sumSkins (resultsFor db tid) = 0 →
      ∀ s ∈ (calculateTournamentPoints db tid).2.tournamentSkins,
        s.tournamentId = tid → s.carryOver = true) ∧
    (sumSkins (resultsFor db tid) ≠ 0 →
      (calculateTournamentPoints db tid).2.tournamentSkins = db.tournamentSkins) := by
  rw [calculateTournamentPoints_found db tid t ht]
  constructor
  · intro hz
    exact skinsStep_carry db.tournamentSkins tid (resultsFor db tid) hz
  · intro hz
    exact skinsStep_unchanged db.tournamentSkins tid (resultsFor db tid) hz

/-- C4 witness: with no results the skin total is zero and the pot row of
t1 ends carried over; with a two-skin result the pot table is untouched. -/
theorem C4_carryover_witness :
    ((calculateTournamentPoints dbSkinsZero "t1").2.tournamentSkins.all
      (fun s => !(s.tournamentId == "t1") || s.carryOver)) = true ∧
    (calculateTournamentPoints dbSkinsTwo "t1").2.tournamentSkins =
      dbSkinsTwo.tournamentSkins := by
  constructor
  · have h := (C4_carryover dbSkinsZero "t1" tRegular rfl).1 (by decide)
    rw [List.all_eq_true]
    intro s hs
    by_cases htid : s.tournamentId = "t1"
    · simp [h s hs htid]
    · simp [htid]
  · exact (C4_carryover dbSkinsTwo "t1" tRegular rfl).2 (by decide)

/-- C8: on a successful run, the returned pointsCalculated and skinsAwarded
are the sums over all teams of the computed per-team totals, and those same
totals are what the run's TeamPoints rows are settled at. -/
theorem C8_returned_totals (db : DB) (tid : String) (t : Tournament)
    (ht : findTournament db tid = some t) :
    (calculateTournamentPoints db tid).1.pointsCalculated =
      ((teamsWithLineups db tid).map
        (fun q => (teamTotals t (getTournamentMultiplier t.isMajor t.isWGC)
          (resultsFor db tid) q.2).1)).sum ∧
    (calculateTournamentPoints db tid).1.skinsAwarded =
      ((teamsWithLineups db tid).map
        (fun q => (teamTotals t (getTournamentMultiplier t.isMajor t.isWGC)
          (resultsFor db tid) q.2).2)).sum ∧
    ∀ q ∈ teamsWithLineups db tid,
      RowsSettled (calculateTournamentPoints db tid).2.teamPoints q.1 tid
        (teamTotals t (getTournamentMultiplier t.isMajor t.isWGC)
          (resultsFor db tid) q.2).1
        (teamTotals t (getTournamentMultiplier t.isMajor t.isWGC)
          (resultsFor db tid) q.2).2 := by
  rw [calculateTournamentPoints_found db tid t ht]
  refine ⟨?_, ?_, ?_⟩
  · have h := (processTeams_totals t (getTournamentMultiplier t.isMajor t.isWGC)
      (resultsFor db tid) tid (teamsWithLineups db tid) 0 0 db.teamPoints).1
    simpa using h
  · have h := (processTeams_totals t (getTournamentMultiplier t.isMajor t.isWGC)
      (resultsFor db tid) tid (teamsWithLineups db tid) 0 0 db.teamPoints).2
    simpa using h
  · intro q hq
    exact processTeams_db_settled db tid t (getTournamentMultiplier t.isMajor t.isWGC)
      (resultsFor db tid) 0 0 db.teamPoints q hq

/-- C8 witness: on the one-team database whose golfer has no result, the
returned total equals the sum of the per-team computed totals. -/
theorem C8_returned_totals_witness :
    (calculateTournamentPoints dbOneTeam "t1").1.pointsCalculated =
      ((teamsWithLineups dbOneTeam "t1").map
        (fun q => (teamTotals tRegular
          (getTournamentMultiplier tRegular.isMajor tRegular.isWGC)
          (resultsFor dbOneTeam "t1") q.2).1)).sum :=
  (C8_returned_totals dbOneTeam "t1" tRegular rfl).1

/-- C10: when the tournament has no TournamentSkins row, a run performs no
TournamentSkins write at all, even when the skin total is zero, and still
returns success. -/
theorem C10_missing_pot (db : DB) (tid : String) (t : Tournament)
    (ht : findTournament db tid = some t)
    (hnone : db.tournamentSkins.find? (fun s => s.tournamentId == tid) = none) :
    (calculateTournamentPoints db tid).1.success = true ∧
    (calculateTournamentPoints db tid).2.tournamentSkins = db.tournamentSkins := by
  rw [calculateTournamentPoints_found db tid t ht]
  exact ⟨rfl, skinsStep_none db.tournamentSkins tid (resultsFor db tid) hnone⟩

/-- C10 witness: on the database with a zero-skin result and no pot row, a
run succeeds and changes no TournamentSkins row. -/
theorem C10_missing_pot_witness :
    (calculateTournamentPoints dbNoPot "t1").1.success = true ∧
    (calculateTournamentPoints dbNoPot "t1").2.tournamentSkins =
      dbNoPot.tournamentSkins :=
  C10_missing_pot dbNoPot "t1" tRegular rfl rfl

/-- C6: the engine is idempotent: running it a second time on the database a
first run produced, with the tournament, result and lineup tables unchanged,
returns the same result value and the same database. -/
theorem C6_idempotent (db : DB) (tid : String) :
    calculateTournamentPoints (calculateTournamentPoints db tid).2 tid =
      calculateTournamentPoints db tid := by
  rcases ht : findTournament db tid with _ | t
  · simp [calculateTournamentPoints, ht]
  · have ht2 : findTournament (calculateTournamentPoints db tid).2 tid = some t := by
      rw [calculateTournamentPoints_found db tid t ht]
      exact ht
    rw [calculateTournamentPoints_found ((calculateTournamentPoints db tid).2) tid t ht2,
      calculateTournamentPoints_found db tid t ht]
    simp only [findTournament_update, resultsFor_update, teamsWithLineups_update]
    rw [Prod.ext_iff]
    constructor
    · simp only [RunResult.mk.injEq, true_and]
      constructor
      · rw [(processTeams_totals t (getTournamentMultiplier t.isMajor t.isWGC)
            (resultsFor db tid) tid (teamsWithLineups db tid) 0 0
            (processTeams t (getTournamentMultiplier t.isMajor t.isWGC)
              (resultsFor db tid) tid (teamsWithLineups db tid) 0 0 db.teamPoints).2.2).1,
          (processTeams_totals t (getTournamentMultiplier t.isMajor t.isWGC)
            (resultsFor db tid) tid (teamsWithLineups db tid) 0 0 db.teamPoints).1]
      · rw [(processTeams_totals t (getTournamentMultiplier t.isMajor t.isWGC)
            (resultsFor db tid) tid (teamsWithLineups db tid) 0 0
            (processTeams t (getTournamentMultiplier t.isMajor t.isWGC)
              (resultsFor db tid) tid (teamsWithLineups db tid) 0 0 db.teamPoints).2.2).2,
          (processTeams_totals t (getTournamentMultiplier t.isMajor t.isWGC)
            (resultsFor db tid) tid (teamsWithLineups db tid) 0 0 db.teamPoints).2]
    · simp only [DB.mk.injEq, true_and]
      constructor
      · exact processTeams_stable t (getTournamentMultiplier t.isMajor t.isWGC)
          (resultsFor db tid) tid (teamsWithLineups db tid) 0 0
          (processTeams t (getTournamentMultiplier t.isMajor t.isWGC)
            (resultsFor db tid) tid (teamsWithLineups db tid) 0 0 db.teamPoints).2.2
          (processTeams_db_settled db tid t (getTournamentMultiplier t.isMajor t.isWGC)
            (resultsFor db tid) 0 0 db.teamPoints)
      · exact skinsStep_idem db.tournamentSkins tid (resultsFor db tid)
